import Mathlib

/-!
Shallow embedding of the `piston_rs` crate (an async client for the Piston
code-execution API) and proofs about its pure data operations.

Source files embedded: `src/lib.rs` (File, LoadError, Runtime),
`src/executor.rs` (ExecResult, ExecResponse, Executor and its builder
methods), `src/client.rs` (Client, header generation, and the
response-handling logic of `Client::execute`), `src/http.rs` (HttpHandler
header assembly from an earlier revision).

Rust `isize` is modelled as `Int` (no arithmetic overflows occur in the
embedded code: fields are only stored and compared), `Vec<T>` as `List T`,
`String`/`&str` as `String`, `Option<T>` as `Option T`, and
`Result<T, E>` as `Except E T`.  Methods taking `mut self` or `&mut self`
are modelled as functions returning the updated value.
-/

namespace PistonRs

/-- Embeds `File` from `src/lib.rs`: a file of source code to submit
(name, content, text encoding). -/
structure File where
  name : String
  content : String
  encoding : String
deriving Repr, DecidableEq

/-- Embeds `impl Default for File` (`src/lib.rs`): unnamed file with utf8
encoding and no content. -/
def File.default : File :=
  { name := "", content := "", encoding := "utf8" }

/-- Embeds `File::new` (`src/lib.rs`). -/
def File.new (name content encoding : String) : File :=
  { name := name, content := content, encoding := encoding }

/-- Embeds `File::set_content` (`src/lib.rs`). -/
def File.set_content (f : File) (content : String) : File :=
  { f with content := content }

/-- Embeds `File::set_name` (`src/lib.rs`). -/
def File.set_name (f : File) (name : String) : File :=
  { f with name := name }

/-- Embeds `File::set_encoding` (`src/lib.rs`). -/
def File.set_encoding (f : File) (encoding : String) : File :=
  { f with encoding := encoding }

/-- Embeds `LoadError` from `src/lib.rs`: the error returned when loading
a `File` from disk fails, carrying a human-readable description. -/
structure LoadError where
  details : String
deriving Repr, DecidableEq

/-- Embeds `LoadError::new` (`src/lib.rs`). -/
def LoadError.new (details : String) : LoadError :=
  { details := details }

/-- Model of the filesystem collaborators used by `File::load_from` and
`File::load_contents` (`src/lib.rs`): `Path::is_file`, `Path::file_name`
(`None` when the path has no final component), and `fs::read_to_string`
(`Err` carries the I/O error's `to_string()` rendering). -/
structure FileSystem where
  is_file : String → Bool
  file_name : String → Option String
  read_to_string : String → Except String String

/-- Embeds `File::load_contents` (`src/lib.rs`): wraps a failed
`fs::read_to_string` into a `LoadError` carrying the I/O error text. -/
def File.load_contents (fs : FileSystem) (path : String) : Except LoadError String :=
  match fs.read_to_string path with
  | .ok content => .ok content
  | .error e => .error (LoadError.new e)

/-- Embeds `File::load_from` (`src/lib.rs`): errors when the path is not a
file, when the file name cannot be parsed, or when reading fails;
otherwise builds a utf8 `File` from the path's file name and contents. -/
def File.load_from (fs : FileSystem) (path : String) : Except LoadError File :=
  if !(fs.is_file path) then
    .error (LoadError.new "File does not exist, or is a directory")
  else
    match fs.file_name path with
    | none => .error (LoadError.new "Unable to parse file name")
    | some n =>
      match File.load_contents fs path with
      | .error e => .error e
      | .ok content => .ok { name := n, content := content, encoding := "utf8" }

/-- Embeds `Runtime` from `src/lib.rs`. -/
structure Runtime where
  language : String
  version : String
  aliases : List String
deriving Repr, DecidableEq

/-- Embeds `ExecResult` from `src/executor.rs`: the result of one
compile or run phase. -/
structure ExecResult where
  stdout : String
  stderr : String
  output : String
  code : Int
  signal : Option String
deriving Repr, DecidableEq

/-- Embeds `ExecResult::is_ok` (`src/executor.rs`): true iff the exit
code is zero. -/
def ExecResult.is_ok (r : ExecResult) : Bool :=
  r.code == 0

/-- Embeds `ExecResult::is_err` (`src/executor.rs`): true iff the exit
code is non-zero. -/
def ExecResult.is_err (r : ExecResult) : Bool :=
  r.code != 0

/-- Embeds `ExecResponse` from `src/executor.rs`.  The `message` field is
the optional error string that `Client::execute` (`src/client.rs`, lines
231-237) stores on a non-200 HTTP status; the struct declaration in
`src/executor.rs` of this snapshot omits it (the spec records that only
some revisions carry it), but the construction site in `src/client.rs`
requires it, so the embedded record includes it.  Neither success
predicate reads `message`. -/
structure ExecResponse where
  language : String
  version : String
  run : ExecResult
  compile : Option ExecResult
  message : Option String
deriving Repr, DecidableEq

/-- Embeds `ExecResponse::is_ok` (`src/executor.rs`): compile success
(when present) and run success. -/
def ExecResponse.is_ok (resp : ExecResponse) : Bool :=
  match resp.compile with
  | some c => c.is_ok && resp.run.is_ok
  | none => resp.run.is_ok

/-- Embeds `ExecResponse::is_err` (`src/executor.rs`): compile failure
(when present) or run failure. -/
def ExecResponse.is_err (resp : ExecResponse) : Bool :=
  match resp.compile with
  | some c => c.is_err || resp.run.is_err
  | none => resp.run.is_err

/-- Embeds `Executor` from `src/executor.rs`: the execution request
payload (language, version, files, stdin, args and resource limits). -/
structure Executor where
  language : String
  version : String
  files : List File
  stdin : String
  args : List String
  compile_timeout : Int
  run_timeout : Int
  compile_memory_limit : Int
  run_memory_limit : Int
deriving Repr, DecidableEq

/-- Embeds `Executor::new` (`src/executor.rs`): the documented defaults. -/
def Executor.new : Executor :=
  { language := ""
    version := "*"
    files := []
    stdin := ""
    args := []
    compile_timeout := 10000
    run_timeout := 3000
    compile_memory_limit := -1
    run_memory_limit := -1 }

/-- Embeds `impl Default for Executor` (`src/executor.rs`): alias for
`Executor::new`. -/
def Executor.default : Executor :=
  Executor.new

/-- Embeds `Executor::reset` (`src/executor.rs`): restores every field to
its default; the in-place mutation is modelled as returning the value. -/
def Executor.reset (_ : Executor) : Executor :=
  { language := ""
    version := "*"
    files := []
    stdin := ""
    args := []
    compile_timeout := 10000
    run_timeout := 3000
    compile_memory_limit := -1
    run_memory_limit := -1 }

/-- Model of Rust `str::to_lowercase`: per-character lowercasing (it
agrees with Rust on ASCII input, which is all this repository
exercises). -/
def to_lowercase (s : String) : String :=
  { data := s.data.map Char.toLower }

/-- Embeds `Executor::set_language` (`src/executor.rs`): stores
`language.to_lowercase()`. -/
def Executor.set_language (e : Executor) (language : String) : Executor :=
  { e with language := to_lowercase language }

/-- Embeds `Executor::set_version` (`src/executor.rs`). -/
def Executor.set_version (e : Executor) (version : String) : Executor :=
  { e with version := version }

/-- Embeds `Executor::add_file` (`src/executor.rs`): `self.files.push(file)`. -/
def Executor.add_file (e : Executor) (file : File) : Executor :=
  { e with files := e.files ++ [file] }

/-- Embeds `Executor::add_files` (`src/executor.rs`): `self.files.extend(files)`. -/
def Executor.add_files (e : Executor) (files : List File) : Executor :=
  { e with files := e.files ++ files }

/-- Embeds `Executor::set_files` (`src/executor.rs`): `self.files = files`;
the `&mut self` mutation is modelled as returning the updated value. -/
def Executor.set_files (e : Executor) (files : List File) : Executor :=
  { e with files := files }

/-- Embeds `Executor::set_stdin` (`src/executor.rs`). -/
def Executor.set_stdin (e : Executor) (stdin : String) : Executor :=
  { e with stdin := stdin }

/-- Embeds `Executor::add_arg` (`src/executor.rs`): `self.args.push(arg)`. -/
def Executor.add_arg (e : Executor) (arg : String) : Executor :=
  { e with args := e.args ++ [arg] }

/-- Embeds `Executor::add_args` (`src/executor.rs`): extends `args` with
the given strings (the Rust `&str → String` conversion is the identity
here). -/
def Executor.add_args (e : Executor) (args : List String) : Executor :=
  { e with args := e.args ++ args }

/-- Embeds `Executor::set_args` (`src/executor.rs`): replaces `args`; the
`&mut self` mutation is modelled as returning the updated value. -/
def Executor.set_args (e : Executor) (args : List String) : Executor :=
  { e with args := args }

/-- Embeds `Executor::set_compile_timeout` (`src/executor.rs`). -/
def Executor.set_compile_timeout (e : Executor) (timeout : Int) : Executor :=
  { e with compile_timeout := timeout }

/-- Embeds `Executor::set_run_timeout` (`src/executor.rs`). -/
def Executor.set_run_timeout (e : Executor) (timeout : Int) : Executor :=
  { e with run_timeout := timeout }

/-- Embeds `Executor::set_compile_memory_limit` (`src/executor.rs`). -/
def Executor.set_compile_memory_limit (e : Executor) (limit : Int) : Executor :=
  { e with compile_memory_limit := limit }

/-- Embeds `Executor::set_run_memory_limit` (`src/executor.rs`). -/
def Executor.set_run_memory_limit (e : Executor) (limit : Int) : Executor :=
  { e with run_memory_limit := limit }

/-- Model of `reqwest::header::HeaderMap::insert` over an association
list: replaces the value stored under an existing key, otherwise appends
the pair. -/
def headers_insert (hs : List (String × String)) (k v : String) : List (String × String) :=
  if hs.any (fun p => p.1 == k) then
    hs.map (fun p => if p.1 == k then (k, v) else p)
  else
    hs ++ [(k, v)]

/-- Model of `reqwest::header::HeaderMap::contains_key`. -/
def headers_contains_key (hs : List (String × String)) (k : String) : Bool :=
  hs.any (fun p => p.1 == k)

/-- Model of `reqwest::header::HeaderMap::get`: the value stored under
the key, if any. -/
def headers_get (hs : List (String × String)) (k : String) : Option String :=
  (hs.find? (fun p => p.1 == k)).map (fun p => p.2)

/-- Embeds `Client` from `src/client.rs` (the `reqwest::Client` handle
carries no data relevant to the embedded logic and is omitted). -/
structure Client where
  url : String
  headers : List (String × String)

/-- Embeds `Client::generate_headers` (`src/client.rs`): `Accept:
application/json`, `User-Agent: piston-rs`, and `Authorization` carrying
the key verbatim when one is supplied. -/
def Client.generate_headers (key : Option String) : List (String × String) :=
  let hs := headers_insert [] "Accept" "application/json"
  let hs := headers_insert hs "User-Agent" "piston-rs"
  match key with
  | some k => headers_insert hs "Authorization" k
  | none => hs

/-- Embeds `Client::new` (`src/client.rs`). -/
def Client.new : Client :=
  { url := "https://emkc.org/api/v2/piston"
    headers := Client.generate_headers none }

/-- Embeds `Client::with_key` (`src/client.rs`). -/
def Client.with_key (key : String) : Client :=
  { url := "https://emkc.org/api/v2/piston"
    headers := Client.generate_headers (some key) }

/-- Embeds `Client::get_url` (`src/client.rs`). -/
def Client.get_url (c : Client) : String :=
  c.url

/-- Embeds `Client::get_headers` (`src/client.rs`). -/
def Client.get_headers (c : Client) : List (String × String) :=
  c.headers

/-- Model of a delivered HTTP response as observed by `Client::execute`
(`src/client.rs`): `status` is the numeric status code compared against
`reqwest::StatusCode::OK`, `statusText` is the `Display` rendering of
`data.status()` (e.g. `"404 Not Found"`), `body` is `data.text()`, and
`jsonExec` is the result of `data.json::<ExecResponse>()` (`none` when
deserialization fails). -/
structure HttpResponse where
  status : Nat
  statusText : String
  body : String
  jsonExec : Option ExecResponse

/-- Model of `Result<reqwest::Response, reqwest::Error>`: the outcome of
`send().await` in `Client::execute`. -/
inductive ReqwestOutcome where
  | ok (data : HttpResponse)
  | err (e : String)

/-- The degenerate `ExecResponse` that `Client::execute`
(`src/client.rs`, lines 222-239) synthesizes on a non-200 status: empty
language/version, an all-empty run result with exit code 0 and no signal,
no compile result, and `message` formatted as
`format!("\x7b\x7d: \x7b\x7d", data.status(), data.text())`. -/
def Client.degenerate_response (data : HttpResponse) : ExecResponse :=
  { language := ""
    version := ""
    run := { stdout := "", stderr := "", output := "", code := 0, signal := none }
    compile := none
    message := some (data.statusText ++ ": " ++ data.body) }

/-- Embeds the response handling of `Client::execute` (`src/client.rs`,
lines 209-244): transport errors propagate as `Err`; a delivered 200
response is deserialized (deserialization failure propagates via `?`); a
delivered non-200 response yields `Ok` with the degenerate response. -/
def Client.execute (outcome : ReqwestOutcome) : Except String ExecResponse :=
  match outcome with
  | .err e => .error e
  | .ok data =>
    if data.status == 200 then
      match data.jsonExec with
      | some resp => .ok resp
      | none => .error "error decoding response body"
    else
      .ok (Client.degenerate_response data)

/-- Embeds `HttpHandler` from `src/http.rs` (an earlier revision of the
transport layer). -/
structure HttpHandler where
  url : String
  headers : List (String × String)

/-- Embeds `HttpHandler::new` (`src/http.rs`): `User-Agent:
piston-rs-client`, `Accept: application/json`, and `Authorization`
carrying the key verbatim when one is supplied. -/
def HttpHandler.new (key : Option String) : HttpHandler :=
  let hs := headers_insert [] "User-Agent" "piston-rs-client"
  let hs := headers_insert hs "Accept" "application/json"
  let hs :=
    match key with
    | some k => headers_insert hs "Authorization" k
    | none => hs
  { url := "https://emkc.org/api/v2/piston", headers := hs }

/-- Concrete execution result with non-empty stdout and non-zero exit
code, mirroring the repository's `test_is_err_with_stdout` test data. -/
def rEx : ExecResult :=
  { stdout := "Hello, world", stderr := "Error!", output := "Hello, world\nError!"
    code := 1, signal := none }

/-- Concrete failed compile outcome. -/
def cFailEx : ExecResult :=
  { stdout := "", stderr := "mismatched types", output := "mismatched types"
    code := 1, signal := none }

/-- Concrete successful run outcome. -/
def runOkEx : ExecResult :=
  { stdout := "42\n", stderr := "", output := "42\n", code := 0, signal := none }

/-- Concrete response whose compile outcome failed while its run outcome
succeeded. -/
def respEx : ExecResponse :=
  { language := "rust", version := "1.50.0", run := runOkEx
    compile := some cFailEx, message := none }

/-- Concrete delivered HTTP response with a 404 status. -/
def dataEx : HttpResponse :=
  { status := 404, statusText := "404 Not Found", body := "runtime unknown"
    jsonExec := none }

/-- Concrete delivered HTTP response with a 500 status. -/
def dataEx2 : HttpResponse :=
  { status := 500, statusText := "500 Internal Server Error", body := "oops"
    jsonExec := none }

/-- Concrete filesystem on which every path is missing and every read
fails with the usual ENOENT rendering. -/
def fsEx : FileSystem :=
  { is_file := fun _ => false
    file_name := fun _ => none
    read_to_string := fun _ => .error "No such file or directory (os error 2)" }

/-- Claim C2: an `ExecResult` is ok iff its exit code is 0 and is err iff
its exit code is non-zero, regardless of stdout and stderr; in
particular, non-empty stdout with a non-zero exit code is failure and not
success. -/
theorem exec_result_success_iff_zero_exit (r : ExecResult) :
    (r.is_ok = true ↔ r.code = 0) ∧ (r.is_err = true ↔ r.code ≠ 0) ∧
    (r.stdout ≠ "" → r.code ≠ 0 → r.is_err = true ∧ r.is_ok = false) := by
  refine ⟨?_, ?_, ?_⟩
  · simp [ExecResult.is_ok]
  · simp [ExecResult.is_err]
  · intro _ hc
    simp [ExecResult.is_err, ExecResult.is_ok, hc]

/-- Witness for C2 at a concrete outcome with non-empty stdout and exit
code 1. -/
theorem exec_result_success_iff_zero_exit_witness :
    rEx.is_err = true ∧ rEx.is_ok = false :=
  (exec_result_success_iff_zero_exit rEx).2.2 (by decide) (by decide)

/-- Claim C3: overall response success is compile success AND run success
when a compile outcome is present, and run success alone otherwise; a
present failed compile outcome makes the response a failure even when the
run outcome succeeded. -/
theorem exec_response_success_composition (resp : ExecResponse) :
    (∀ c, resp.compile = some c →
      ((resp.is_ok = true ↔ c.is_ok = true ∧ resp.run.is_ok = true) ∧
       (c.is_err = true → resp.is_err = true ∧ resp.is_ok = false))) ∧
    (resp.compile = none →
      ((resp.is_ok = true ↔ resp.run.is_ok = true) ∧
       (resp.is_err = true ↔ resp.run.is_err = true))) := by
  constructor
  · intro c hc
    constructor
    · simp [ExecResponse.is_ok, hc]
    · intro hce
      have hcode : c.code ≠ 0 := by simpa [ExecResult.is_err] using hce
      constructor
      · simp [ExecResponse.is_err, hc, ExecResult.is_err, hcode]
      · simp [ExecResponse.is_ok, hc, ExecResult.is_ok, hcode]
  · intro hc
    constructor <;> simp [ExecResponse.is_ok, ExecResponse.is_err, hc]

/-- Witness for C3 at a concrete response whose compile outcome failed
while its run outcome succeeded. -/
theorem exec_response_success_composition_witness :
    respEx.is_err = true ∧ respEx.is_ok = false :=
  ((exec_response_success_composition respEx).1 cFailEx rfl).2 (by decide)

/-- Claim C1: on a delivered non-200 response, `Client::execute` returns
`Ok` with the synthesized degenerate response: `message` holds the HTTP
status rendering and the body text, the run outcome is all-empty with
exit code 0 and no signal, language and version are empty, and compile is
absent. -/
theorem client_execute_non200_returns_ok_degenerate (data : HttpResponse)
    (h : data.status ≠ 200) :
    Client.execute (.ok data) = .ok (Client.degenerate_response data) ∧
    (Client.degenerate_response data).message =
      some (data.statusText ++ ": " ++ data.body) ∧
    (Client.degenerate_response data).run.stdout = "" ∧
    (Client.degenerate_response data).run.stderr = "" ∧
    (Client.degenerate_response data).run.output = "" ∧
    (Client.degenerate_response data).run.code = 0 ∧
    (Client.degenerate_response data).run.signal = none ∧
    (Client.degenerate_response data).language = "" ∧
    (Client.degenerate_response data).version = "" ∧
    (Client.degenerate_response data).compile = none := by
  refine ⟨?_, rfl, rfl, rfl, rfl, rfl, rfl, rfl, rfl, rfl⟩
  simp [Client.execute, h]

/-- Witness for C1 at a concrete 404 response. -/
theorem client_execute_non200_witness :
    Client.execute (.ok dataEx) = .ok (Client.degenerate_response dataEx) ∧
    (Client.degenerate_response dataEx).message =
      some (dataEx.statusText ++ ": " ++ dataEx.body) ∧
    (Client.degenerate_response dataEx).run.stdout = "" ∧
    (Client.degenerate_response dataEx).run.stderr = "" ∧
    (Client.degenerate_response dataEx).run.output = "" ∧
    (Client.degenerate_response dataEx).run.code = 0 ∧
    (Client.degenerate_response dataEx).run.signal = none ∧
    (Client.degenerate_response dataEx).language = "" ∧
    (Client.degenerate_response dataEx).version = "" ∧
    (Client.degenerate_response dataEx).compile = none :=
  client_execute_non200_returns_ok_degenerate dataEx (by decide)

/-- Claim C10: the degenerate response synthesized for a non-200 status
satisfies `is_ok = true` and `is_err = false`, so the transport-level
failure is indistinguishable from success under the response's own
predicates. -/
theorem degenerate_response_reports_success (data : HttpResponse)
    (h : data.status ≠ 200) :
    Client.execute (.ok data) = .ok (Client.degenerate_response data) ∧
    (Client.degenerate_response data).is_ok = true ∧
    (Client.degenerate_response data).is_err = false := by
  refine ⟨?_, rfl, rfl⟩
  simp [Client.execute, h]

/-- Witness for C10 at a concrete 500 response. -/
theorem degenerate_response_reports_success_witness :
    Client.execute (.ok dataEx2) = .ok (Client.degenerate_response dataEx2) ∧
    (Client.degenerate_response dataEx2).is_ok = true ∧
    (Client.degenerate_response dataEx2).is_err = false :=
  degenerate_response_reports_success dataEx2 (by decide)

/-- Claim C4: a freshly built `Executor` has empty language, version
`"*"`, empty files, empty stdin, empty args, compile timeout 10000, run
timeout 3000, and both memory limits -1; `Executor::default` is
`Executor::new`. -/
theorem executor_new_defaults :
    Executor.new.language = "" ∧ Executor.new.version = "*" ∧
    Executor.new.files = [] ∧ Executor.new.stdin = "" ∧
    Executor.new.args = [] ∧ Executor.new.compile_timeout = 10000 ∧
    Executor.new.run_timeout = 3000 ∧
    Executor.new.compile_memory_limit = -1 ∧
    Executor.new.run_memory_limit = -1 ∧
    Executor.default = Executor.new :=
  ⟨rfl, rfl, rfl, rfl, rfl, rfl, rfl, rfl, rfl, rfl⟩

/-- Claim C5: `add_file` appends to the end of the file sequence without
discarding prior files (two `add_file` calls yield the two files in
insertion order), while `set_files` replaces the whole sequence, so
`add_file` followed by `set_files [a, b]` leaves exactly `[a, b]`. -/
theorem executor_files_append_vs_replace (e : Executor) (f a b : File) :
    (e.add_file f).files = e.files ++ [f] ∧
    ((Executor.new.add_file a).add_file b).files = [a, b] ∧
    ((Executor.new.add_file a).add_file b).files.length = 2 ∧
    (e.set_files [a, b]).files = [a, b] ∧
    ((e.add_file f).set_files [a, b]).files = [a, b] :=
  ⟨rfl, rfl, rfl, rfl, rfl⟩

/-- Claim C6: `set_language` stores the lower-cased form of its input;
in particular `"Rust"` is stored as `"rust"`. -/
theorem executor_set_language_lowercases (e : Executor) (s : String) :
    (e.set_language s).language = to_lowercase s ∧
    (Executor.new.set_language "Rust").language = "rust" :=
  ⟨rfl, by decide⟩

/-- Claim C7: a client built with no API key carries `Accept:
application/json` and a user-agent header and no `Authorization` header;
a client built with key `"123abc"` carries the same headers plus
`Authorization: 123abc`, the key verbatim.  The same holds for the
earlier-revision `HttpHandler`. -/
theorem client_header_assembly :
    (headers_contains_key Client.new.headers "Accept" = true) ∧
    (headers_get Client.new.headers "Accept" = some "application/json") ∧
    (headers_contains_key Client.new.headers "User-Agent" = true) ∧
    (headers_contains_key Client.new.headers "Authorization" = false) ∧
    (∀ k, (Client.with_key k).headers =
      Client.new.headers ++ [("Authorization", k)]) ∧
    (headers_get (Client.with_key "123abc").headers "Authorization" =
      some "123abc") ∧
    (headers_contains_key (HttpHandler.new none).headers "Accept" = true) ∧
    (headers_get (HttpHandler.new none).headers "Accept" =
      some "application/json") ∧
    (headers_contains_key (HttpHandler.new none).headers "User-Agent" = true) ∧
    (headers_contains_key (HttpHandler.new none).headers "Authorization" = false) ∧
    (∀ k, (HttpHandler.new (some k)).headers =
      (HttpHandler.new none).headers ++ [("Authorization", k)]) ∧
    (headers_get (HttpHandler.new (some "123abc")).headers "Authorization" =
      some "123abc") :=
  ⟨by decide, by decide, by decide, by decide, fun k => rfl, by decide,
   by decide, by decide, by decide, by decide, fun k => rfl, by decide⟩

/-- Claim C8: loading a `File` from a path that is not a file yields a
`LoadError` with a human-readable description (never an `ok` with empty
content), and loading contents from an unreadable path yields a
`LoadError` carrying the underlying I/O error description. -/
theorem file_load_error_distinguishable (fs : FileSystem) (path : String) :
    (fs.is_file path = false →
      File.load_from fs path =
        .error (LoadError.new "File does not exist, or is a directory")) ∧
    (∀ e, fs.read_to_string path = .error e →
      File.load_contents fs path = .error (LoadError.new e)) := by
  constructor
  · intro h
    simp [File.load_from, h]
  · intro e h
    simp [File.load_contents, h]

/-- Witness for C8 on a filesystem where the path is missing. -/
theorem file_load_error_distinguishable_witness :
    File.load_from fsEx "/path/doesnt/exist" =
      .error (LoadError.new "File does not exist, or is a directory") ∧
    File.load_contents fsEx "/path/doesnt/exist" =
      .error (LoadError.new "No such file or directory (os error 2)") :=
  ⟨(file_load_error_distinguishable fsEx "/path/doesnt/exist").1 rfl,
   (file_load_error_distinguishable fsEx "/path/doesnt/exist").2
     "No such file or directory (os error 2)" rfl⟩

/-- Claim C9: every builder operation on `Executor` and `File` sets
exactly one field and leaves every other field unchanged. -/
theorem builder_sets_exactly_one_field (e : Executor) (fi : File)
    (s : String) (f : File) (fl : List File) (xs : List String) (t : Int) :
    ((e.set_language s).language = to_lowercase s ∧
     (e.set_language s).version = e.version ∧
     (e.set_language s).files = e.files ∧
     (e.set_language s).stdin = e.stdin ∧
     (e.set_language s).args = e.args ∧
     (e.set_language s).compile_timeout = e.compile_timeout ∧
     (e.set_language s).run_timeout = e.run_timeout ∧
     (e.set_language s).compile_memory_limit = e.compile_memory_limit ∧
     (e.set_language s).run_memory_limit = e.run_memory_limit) ∧
    ((e.set_version s).version = s ∧
     (e.set_version s).language = e.language ∧
     (e.set_version s).files = e.files ∧
     (e.set_version s).stdin = e.stdin ∧
     (e.set_version s).args = e.args ∧
     (e.set_version s).compile_timeout = e.compile_timeout ∧
     (e.set_version s).run_timeout = e.run_timeout ∧
     (e.set_version s).compile_memory_limit = e.compile_memory_limit ∧
     (e.set_version s).run_memory_limit = e.run_memory_limit) ∧
    ((e.add_file f).files = e.files ++ [f] ∧
     (e.add_file f).language = e.language ∧
     (e.add_file f).version = e.version ∧
     (e.add_file f).stdin = e.stdin ∧
     (e.add_file f).args = e.args ∧
     (e.add_file f).compile_timeout = e.compile_timeout ∧
     (e.add_file f).run_timeout = e.run_timeout ∧
     (e.add_file f).compile_memory_limit = e.compile_memory_limit ∧
     (e.add_file f).run_memory_limit = e.run_memory_limit) ∧
    ((e.add_files fl).files = e.files ++ fl ∧
     (e.add_files fl).language = e.language ∧
     (e.add_files fl).version = e.version ∧
     (e.add_files fl).stdin = e.stdin ∧
     (e.add_files fl).args = e.args ∧
     (e.add_files fl).compile_timeout = e.compile_timeout ∧
     (e.add_files fl).run_timeout = e.run_timeout ∧
     (e.add_files fl).compile_memory_limit = e.compile_memory_limit ∧
     (e.add_files fl).run_memory_limit = e.run_memory_limit) ∧
    ((e.set_files fl).files = fl ∧
     (e.set_files fl).language = e.language ∧
     (e.set_files fl).version = e.version ∧
     (e.set_files fl).stdin = e.stdin ∧
     (e.set_files fl).args = e.args ∧
     (e.set_files fl).compile_timeout = e.compile_timeout ∧
     (e.set_files fl).run_timeout = e.run_timeout ∧
     (e.set_files fl).compile_memory_limit = e.compile_memory_limit ∧
     (e.set_files fl).run_memory_limit = e.run_memory_limit) ∧
    ((e.set_stdin s).stdin = s ∧
     (e.set_stdin s).language = e.language ∧
     (e.set_stdin s).version = e.version ∧
     (e.set_stdin s).files = e.files ∧
     (e.set_stdin s).args = e.args ∧
     (e.set_stdin s).compile_timeout = e.compile_timeout ∧
     (e.set_stdin s).run_timeout = e.run_timeout ∧
     (e.set_stdin s).compile_memory_limit = e.compile_memory_limit ∧
     (e.set_stdin s).run_memory_limit = e.run_memory_limit) ∧
    ((e.add_arg s).args = e.args ++ [s] ∧
     (e.add_arg s).language = e.language ∧
     (e.add_arg s).version = e.version ∧
     (e.add_arg s).files = e.files ∧
     (e.add_arg s).stdin = e.stdin ∧
     (e.add_arg s).compile_timeout = e.compile_timeout ∧
     (e.add_arg s).run_timeout = e.run_timeout ∧
     (e.add_arg s).compile_memory_limit = e.compile_memory_limit ∧
     (e.add_arg s).run_memory_limit = e.run_memory_limit) ∧
    ((e.add_args xs).args = e.args ++ xs ∧
     (e.add_args xs).language = e.language ∧
     (e.add_args xs).version = e.version ∧
     (e.add_args xs).files = e.files ∧
     (e.add_args xs).stdin = e.stdin ∧
     (e.add_args xs).compile_timeout = e.compile_timeout ∧
     (e.add_args xs).run_timeout = e.run_timeout ∧
     (e.add_args xs).compile_memory_limit = e.compile_memory_limit ∧
     (e.add_args xs).run_memory_limit = e.run_memory_limit) ∧
    ((e.set_args xs).args = xs ∧
     (e.set_args xs).language = e.language ∧
     (e.set_args xs).version = e.version ∧
     (e.set_args xs).files = e.files ∧
     (e.set_args xs).stdin = e.stdin ∧
     (e.set_args xs).compile_timeout = e.compile_timeout ∧
     (e.set_args xs).run_timeout = e.run_timeout ∧
     (e.set_args xs).compile_memory_limit = e.compile_memory_limit ∧
     (e.set_args xs).run_memory_limit = e.run_memory_limit) ∧
    ((e.set_compile_timeout t).compile_timeout = t ∧
     (e.set_compile_timeout t).language = e.language ∧
     (e.set_compile_timeout t).version = e.version ∧
     (e.set_compile_timeout t).files = e.files ∧
     (e.set_compile_timeout t).stdin = e.stdin ∧
     (e.set_compile_timeout t).args = e.args ∧
     (e.set_compile_timeout t).run_timeout = e.run_timeout ∧
     (e.set_compile_timeout t).compile_memory_limit = e.compile_memory_limit ∧
     (e.set_compile_timeout t).run_memory_limit = e.run_memory_limit) ∧
    ((e.set_run_timeout t).run_timeout = t ∧
     (e.set_run_timeout t).language = e.language ∧
     (e.set_run_timeout t).version = e.version ∧
     (e.set_run_timeout t).files = e.files ∧
     (e.set_run_timeout t).stdin = e.stdin ∧
     (e.set_run_timeout t).args = e.args ∧
     (e.set_run_timeout t).compile_timeout = e.compile_timeout ∧
     (e.set_run_timeout t).compile_memory_limit = e.compile_memory_limit ∧
     (e.set_run_timeout t).run_memory_limit = e.run_memory_limit) ∧
    ((e.set_compile_memory_limit t).compile_memory_limit = t ∧
     (e.set_compile_memory_limit t).language = e.language ∧
     (e.set_compile_memory_limit t).version = e.version ∧
     (e.set_compile_memory_limit t).files = e.files ∧
     (e.set_compile_memory_limit t).stdin = e.stdin ∧
     (e.set_compile_memory_limit t).args = e.args ∧
     (e.set_compile_memory_limit t).compile_timeout = e.compile_timeout ∧
     (e.set_compile_memory_limit t).run_timeout = e.run_timeout ∧
     (e.set_compile_memory_limit t).run_memory_limit = e.run_memory_limit) ∧
    ((e.set_run_memory_limit t).run_memory_limit = t ∧
     (e.set_run_memory_limit t).language = e.language ∧
     (e.set_run_memory_limit t).version = e.version ∧
     (e.set_run_memory_limit t).files = e.files ∧
     (e.set_run_memory_limit t).stdin = e.stdin ∧
     (e.set_run_memory_limit t).args = e.args ∧
     (e.set_run_memory_limit t).compile_timeout = e.compile_timeout ∧
     (e.set_run_memory_limit t).run_timeout = e.run_timeout ∧
     (e.set_run_memory_limit t).compile_memory_limit = e.compile_memory_limit) ∧
    ((fi.set_name s).name = s ∧
     (fi.set_name s).content = fi.content ∧
     (fi.set_name s).encoding = fi.encoding) ∧
    ((fi.set_content s).content = s ∧
     (fi.set_content s).name = fi.name ∧
     (fi.set_content s).encoding = fi.encoding) ∧
    ((fi.set_encoding s).encoding = s ∧
     (fi.set_encoding s).name = fi.name ∧
     (fi.set_encoding s).content = fi.content) := by
  repeat' apply And.intro
  all_goals rfl

end PistonRs
